import Mathlib

/-!
Verification development for the `meteostations-geopy` repository.

The definitions below are a shallow embedding of the core subsystems:

* the cached, retrying HTTP fetch layer
  (`meteostations/utils.py`: `_url_in_cache`, `_retrieve_from_cache`,
  `_save_to_cache`; `meteostations/clients/base.py`: `_perform_request`,
  `_get_json_from_url`),
* the variable-identifier resolver
  (`meteostations/mixins/variables.py`: `_process_variable_arg`),
* the region resolver
  (`meteostations/mixins/region.py`: `_process_region_arg`),
* the memoized stations attribute
  (`meteostations/base.py`: `stations_gdf`).

Network responses are modelled as a list consumed in order; the on-disk
cache as an association list keyed by the (sha1-fingerprinted) prepared
URL, with sha1 modelled by an injective stand-in (the URL string itself);
JSON (de)serialisation round trips are the identity.
-/

/-- A Python value returned by `response.json()` or produced by the retry
path of `_perform_request`.  `null` is Python `None` (a JSON `null` body);
`json` is any other decoded JSON document, identified by its serialised
text; `pair` is the tuple `(response_json, sc)` that the retry branch of
`_perform_request` assigns to `response_json` (the recursive call returns
a 2-tuple which is stored undestructured). -/
inductive Payload where
  | null : Payload
  | json : String → Payload
  | pair : Payload → Nat → Payload
deriving DecidableEq, Repr

/-- One HTTP response delivered by the network: a status code and, when the
body is JSON-decodable, the decoded payload (`none` models a body on which
`response.json()` raises). -/
structure HttpResponse where
  status : Nat
  body : Option Payload
deriving DecidableEq, Repr

/-- The on-disk cache folder: one record per fingerprinted URL. -/
abbrev Cache : Type := List (String × Payload)

/-- Insert-or-overwrite a cache record (writing the file for a fingerprint
overwrites any previous content at that path). -/
def cacheWrite (c : Cache) (k : String) (v : Payload) : Cache :=
  if (List.any c fun e => e.1 == k) then
    List.map (fun e => if e.1 == k then (k, v) else e) c
  else
    c ++ [(k, v)]

/-- Cache lookup by fingerprint (`_url_in_cache` followed by reading the
file). -/
def cacheLookup (c : Cache) (k : String) : Option Payload :=
  match c with
  | [] => none
  | e :: es => if e.1 == k then some e.2 else cacheLookup es k

/-- `utils._retrieve_from_cache` with the default `check_remark=False`:
returns the cached payload when the cache is enabled and the fingerprint
of the URL has a file, otherwise `None`. -/
def retrieve_from_cache (useCache : Bool) (url : String) (c : Cache) :
    Option Payload :=
  if useCache then cacheLookup c url else none

/-- `utils._save_to_cache`: writes the payload to the cache keyed by the
sha1 fingerprint of `url`, but only when the cache is enabled, the status
code is 200 and the payload is not `None`; otherwise it only logs the skip.
Returns the new cache together with the log messages emitted. -/
def save_to_cache (useCache : Bool) (url : String) (response_json : Payload)
    (sc : Nat) (c : Cache) : Cache × List String :=
  if useCache then
    if sc ≠ 200 then
      (c, ["Did not save to cache because status code is " ++ toString sc])
    else
      match response_json with
      | Payload.null => (c, ["Did not save to cache because response_json is None"])
      | p => (cacheWrite c url p, ["Saved response to cache file " ++ url])
  else
    (c, [])

/-- Errors surfaced by the fetch layer.  `unhandled` models the
`Exception("Server returned: ...")` raised on a non-JSON body whose status
is not 429/504; `noResponse` is a model artifact for an exhausted response
list (the real code would retry forever). -/
inductive ReqError where
  | noResponse : ReqError
  | unhandled : Nat → ReqError
deriving DecidableEq, Repr

/-- `BaseClient._perform_request` (`meteostations/clients/base.py`, the
identical logic also appears in `meteostations/base.py`): consume the next
response; if its body decodes, return `(payload, status)`; on a non-JSON
body with status 429 or 504, pause and retry recursively, assigning the
recursive call's whole `(payload, status)` tuple to `response_json` while
`sc` keeps the current (failed) status; on any other non-JSON response,
raise.  Also returns the remaining network responses. -/
def perform_request : List HttpResponse → Except ReqError (Payload × Nat × List HttpResponse)
  | [] => Except.error ReqError.noResponse
  | r :: rest =>
    match r.body with
    | some p => Except.ok (p, r.status, rest)
    | none =>
      if r.status = 429 ∨ r.status = 504 then
        match perform_request rest with
        | Except.ok (p, sc2, rest2) => Except.ok (Payload.pair p sc2, r.status, rest2)
        | Except.error e => Except.error e
      else
        Except.error (ReqError.unhandled r.status)

/-- Query parameters in Python-dict insertion order. -/
abbrev Params : Type := List (String × String)

/-- `dict.update` semantics: existing keys keep their position and take the
new value, new keys are appended in order. -/
def updateParams (base upd : Params) : Params :=
  List.foldl
    (fun acc kv =>
      if (List.any acc fun e => e.1 == kv.1) then
        List.map (fun e => if e.1 == kv.1 then (e.1, kv.2) else e) acc
      else
        acc ++ [kv])
    base upd

/-- `requests.Request("GET", url, params=_params).prepare().url`: the URL
with the query string appended in the parameters' insertion order. -/
def preparedUrl (url : String) (ps : Params) : String :=
  match ps with
  | [] => url
  | _ => url ++ "?" ++ String.intercalate "&" (List.map (fun p => p.1 ++ "=" ++ p.2) ps)

/-- Fetch-layer configuration: `settings.USE_CACHE` and the client's
`request_params` property (`{}` on `BaseClient`). -/
structure FetchEnv where
  useCache : Bool
  defaultParams : Params

/-- `BaseClient._get_json_from_url` (`meteostations/clients/base.py`):
prepare the URL from the merged default and per-call parameters, return a
cached response when one exists, otherwise perform the request, write the
result through `_save_to_cache` keyed by the prepared URL, and return the
payload.  The returned triple is (payload, cache after the call, network
responses left unconsumed). -/
def get_json_from_url (env : FetchEnv) (url : String) (params : Params)
    (c : Cache) (net : List HttpResponse) :
    Except ReqError (Payload × Cache × List HttpResponse) :=
  let prepared := preparedUrl url (updateParams env.defaultParams params)
  match retrieve_from_cache env.useCache prepared c with
  | some cached => Except.ok (cached, c, net)
  | none =>
    match perform_request net with
    | Except.ok (response_json, sc, net2) =>
      Except.ok (response_json, (save_to_cache env.useCache prepared response_json sc c).1, net2)
    | Except.error e => Except.error e

/-- C1: a single `_get_json_from_url` call against the response sequence
[504 (non-JSON), 504 (non-JSON), 200 (JSON)] writes NO cache entry at all:
the retry branch never updates `sc`, so `_save_to_cache` sees status 504
and skips, and the returned payload is the nested retry tuple.  This
contradicts the spec's intended "exactly one successfully cached entry"
(and the function's own docstring, which promises a dict payload). -/
theorem retry_504_sequence_caches_nothing :
    get_json_from_url ⟨true, []⟩ "https://api.example.com/v1/data" [] []
      [⟨504, none⟩, ⟨504, none⟩, ⟨200, some (Payload.json "stations")⟩] =
    Except.ok (Payload.pair (Payload.pair (Payload.json "stations") 200) 504, [], []) := by
  rfl

/-- C10: when the first response has status 429 or 504 with a non-JSON body
and the retries eventually succeed, the pair returned by
`_perform_request` carries the status code of the first failed response,
not that of the eventual successful response (whose status ends up buried
inside the nested payload tuple). -/
theorem perform_request_first_error_status (sc0 : Nat) (rest : List HttpResponse)
    (p : Payload) (sc2 : Nat) (net2 : List HttpResponse)
    (hsc : sc0 = 429 ∨ sc0 = 504)
    (hrest : perform_request rest = Except.ok (p, sc2, net2)) :
    perform_request (⟨sc0, none⟩ :: rest) = Except.ok (Payload.pair p sc2, sc0, net2) := by
  unfold perform_request
  simp only [if_pos hsc, hrest]

/-- Witness for C10 at the concrete input [504 non-JSON, 200 JSON]. -/
theorem perform_request_first_error_status_witness :
    perform_request [⟨504, none⟩, ⟨200, some (Payload.json "d")⟩] =
    Except.ok (Payload.pair (Payload.json "d") 200, 504, []) :=
  perform_request_first_error_status 504 [⟨200, some (Payload.json "d")⟩]
    (Payload.json "d") 200 [] (Or.inr rfl) rfl

/-- C4: with the cache enabled, `_save_to_cache` persists nothing when the
status code is not 200 or the payload is `None`, and that skip emits a log
message; and (for any cache setting) a write only ever happens for status
200 and a non-`None` payload. -/
theorem save_to_cache_only_200 (url : String) (p : Payload) (sc : Nat) (c : Cache) :
    ((sc ≠ 200 ∨ p = Payload.null) →
      (save_to_cache true url p sc c).1 = c ∧ (save_to_cache true url p sc c).2 ≠ []) ∧
    (∀ useCache : Bool, (save_to_cache useCache url p sc c).1 ≠ c →
      sc = 200 ∧ p ≠ Payload.null) := by
  constructor
  · intro h
    unfold save_to_cache
    by_cases hsc : sc = 200
    · have hp : p = Payload.null := by
        rcases h with h | h
        · exact absurd hsc h
        · exact h
      subst hp
      simp [hsc]
    · simp [hsc]
  · intro useCache h
    unfold save_to_cache at h
    by_cases hu : useCache = true
    · subst hu
      simp only [if_pos rfl] at h
      by_cases hsc : sc = 200
      · subst hsc
        refine ⟨rfl, ?_⟩
        intro hp
        subst hp
        simp at h
      · simp [hsc] at h
    · simp at hu
      subst hu
      simp at h

/-- Witness for C4: a 504 response with a non-null payload is not written
and the skip is logged. -/
theorem save_to_cache_only_200_witness :
    (save_to_cache true "u" (Payload.json "x") 504 []).1 = [] ∧
    (save_to_cache true "u" (Payload.json "x") 504 []).2 ≠ [] :=
  (save_to_cache_only_200 "u" (Payload.json "x") 504 []).1 (Or.inl (by decide))

/-- A Python scalar as it appears in the variable catalog and as a variable
token: either an `int` or a `str`.  Python `==` across the two types is
always `False`. -/
inductive PyVal where
  | int : Int → PyVal
  | str : String → PyVal
deriving DecidableEq, Repr

/-- Python `==` on catalog scalars. -/
def pyEq : PyVal → PyVal → Bool
  | PyVal.int a, PyVal.int b => a == b
  | PyVal.str a, PyVal.str b => a == b
  | _, _ => false

/-- Python `str.isdigit` restricted to ASCII digits: non-empty and all
characters are digits. -/
def strIsDigit (s : String) : Bool :=
  !(List.isEmpty s.data) && List.all s.data Char.isDigit

/-- Python `int(s)` for a digit string: decimal value. -/
def strToNat (s : String) : Nat :=
  List.foldl (fun acc c => acc * 10 + (c.toNat - 48)) 0 s.data

/-- The variable catalog `variables_df`, reduced to the two columns the
resolver reads: the native-code column and the display-name column. -/
structure VarCatalog where
  rows : List (PyVal × String)

/-- Errors raised by `_process_variable_arg`: `invalidCode` is the
`ValueError("variable ... is not a valid variable code")`; `itemError` is
the `ValueError` raised by pandas `.item()` when the display-name lookup
matches zero or more than one row. -/
inductive VarError where
  | invalidCode : PyVal → VarError
  | itemError : VarError
deriving DecidableEq, Repr

/-- `VariablesMixin._process_variable_arg`
(`meteostations/mixins/variables.py`): an `int` token, or a digit-only
`str` token, is converted with `int(...)` and checked against the
native-code column (returning the *integer* `variable_code`, which reaches
the final `return variable_code`); otherwise a `str` token equal to a
catalog code is returned as-is; otherwise the token is mapped through
`_ecv_dict` (defaulting to itself) and looked up in the display-name
column, `.item()` requiring exactly one matching row. -/
def process_variable_arg (catalog : VarCatalog) (ecv : List (String × String))
    (v : PyVal) : Except VarError PyVal :=
  let codes := List.map Prod.fst catalog.rows
  match v with
  | PyVal.int n =>
    if List.any codes (fun c => pyEq c (PyVal.int n)) then
      Except.ok (PyVal.int n)
    else
      Except.error (VarError.invalidCode v)
  | PyVal.str s =>
    if strIsDigit s then
      let n : Int := (strToNat s : Int)
      if List.any codes (fun c => pyEq c (PyVal.int n)) then
        Except.ok (PyVal.int n)
      else
        Except.error (VarError.invalidCode v)
    else if List.any codes (fun c => pyEq c (PyVal.str s)) then
      Except.ok (PyVal.str s)
    else
      let variable_name := (List.lookup s ecv).getD s
      match List.filter (fun r => r.2 == variable_name) catalog.rows with
      | [r] => Except.ok r.1
      | _ => Except.error VarError.itemError

/-- C3 counterexample: with a catalog whose native-code column contains the
integer 35, resolving the digit string "35" returns the *integer* 35, not
the string "35" — the claim that a string token is returned as a string is
false. -/
theorem digit_string_token_counterexample :
    process_variable_arg ⟨[(PyVal.int 35, "Precipitació")]⟩ [] (PyVal.str "35") =
      Except.ok (PyVal.int 35) ∧
    Except.ok (PyVal.int 35) ≠
      (Except.ok (PyVal.str "35") : Except VarError PyVal) := by
  constructor
  · rfl
  · intro h
    exact absurd (Except.ok.inj h) (by decide)

/-- C3 (amended): for a token that is an integer, or a digit-only string,
with integer value `n`, the resolver returns the integer `n` (so an `int`
token is returned unchanged, while a digit string is converted to `int`)
when `n` occurs in the native-code column, and fails with the
invalid-code error otherwise. -/
theorem numeric_token_resolution (catalog : VarCatalog)
    (ecv : List (String × String)) (v : PyVal) (n : Int)
    (h : v = PyVal.int n ∨
      ∃ s, v = PyVal.str s ∧ strIsDigit s = true ∧ (strToNat s : Int) = n) :
    (List.any (List.map Prod.fst catalog.rows) (fun c => pyEq c (PyVal.int n)) = true →
      process_variable_arg catalog ecv v = Except.ok (PyVal.int n)) ∧
    (List.any (List.map Prod.fst catalog.rows) (fun c => pyEq c (PyVal.int n)) = false →
      process_variable_arg catalog ecv v =
        Except.error (VarError.invalidCode v)) := by
  rcases h with h | ⟨s, hv, hdig, hval⟩
  · subst h
    refine ⟨fun hmem => ?_, fun hmem => ?_⟩ <;>
      simp [process_variable_arg, hmem]
  · subst hv
    refine ⟨fun hmem => ?_, fun hmem => ?_⟩ <;>
      simp [process_variable_arg, hdig, hval, hmem]

/-- Witness for C3's amended theorem: the int token 35 resolves to 35 in a
catalog containing code 35, and fails in a catalog without it. -/
theorem numeric_token_resolution_witness :
    process_variable_arg ⟨[(PyVal.int 35, "Precipitació")]⟩ [] (PyVal.int 35) =
      Except.ok (PyVal.int 35) ∧
    process_variable_arg ⟨[(PyVal.int 36, "x")]⟩ [] (PyVal.int 35) =
      Except.error (VarError.invalidCode (PyVal.int 35)) := by
  constructor
  · exact (numeric_token_resolution ⟨[(PyVal.int 35, "Precipitació")]⟩ [] (PyVal.int 35) 35
      (Or.inl rfl)).1 (by decide)
  · exact (numeric_token_resolution ⟨[(PyVal.int 36, "x")]⟩ [] (PyVal.int 35) 35
      (Or.inl rfl)).2 (by decide)

/-- C5: with the Meteocat-style catalog row {code: 35, name: "Precipitació"}
and the canonical mapping {"precipitation": "Precipitació"} (the entry of
`ECV_DICT` in `meteostations/clients/meteocat.py`), each of the four
tokens "precipitation", "Precipitació", "35" and 35 resolves to the native
code 35. -/
theorem meteocat_precipitation_resolution :
    process_variable_arg ⟨[(PyVal.int 35, "Precipitació")]⟩
      [("precipitation", "Precipitació")] (PyVal.str "precipitation") =
        Except.ok (PyVal.int 35) ∧
    process_variable_arg ⟨[(PyVal.int 35, "Precipitació")]⟩
      [("precipitation", "Precipitació")] (PyVal.str "Precipitació") =
        Except.ok (PyVal.int 35) ∧
    process_variable_arg ⟨[(PyVal.int 35, "Precipitació")]⟩
      [("precipitation", "Precipitació")] (PyVal.str "35") =
        Except.ok (PyVal.int 35) ∧
    process_variable_arg ⟨[(PyVal.int 35, "Precipitació")]⟩
      [("precipitation", "Precipitació")] (PyVal.int 35) =
        Except.ok (PyVal.int 35) := by
  refine ⟨?_, ?_, ?_, ?_⟩ <;> rfl

/-- Overwriting the record whose fingerprint already occurs in the cache
makes lookup of that fingerprint return the new payload. -/
theorem cacheLookup_overwrite (k : String) (v : Payload) :
    ∀ c : Cache, List.any c (fun e => e.1 == k) = true →
      cacheLookup (List.map (fun e => if e.1 == k then (k, v) else e) c) k = some v := by
  intro c
  induction c with
  | nil => intro h; simp at h
  | cons e es ih =>
    intro h
    by_cases he : (e.1 == k) = true
    · simp only [List.map_cons, if_pos he, cacheLookup]
      rw [if_pos (beq_self_eq_true k)]
    · have h2 : List.any es (fun e => e.1 == k) = true := by
        rw [List.any_cons] at h
        cases hke : (e.1 == k)
        · rw [hke] at h
          simpa using h
        · exact absurd hke he
      simp only [List.map_cons, if_neg he, cacheLookup]
      exact ih h2

/-- Appending a record for a fingerprint absent from the cache makes lookup
of that fingerprint return the appended payload. -/
theorem cacheLookup_append_fresh (k : String) (v : Payload) :
    ∀ c : Cache, List.any c (fun e => e.1 == k) = false →
      cacheLookup (c ++ [(k, v)]) k = some v := by
  intro c
  induction c with
  | nil => intro h; simp [cacheLookup]
  | cons e es ih =>
    intro h
    rw [List.any_cons] at h
    cases he : (e.1 == k)
    · rw [he] at h
      simp only [Bool.false_or] at h
      simp only [List.cons_append, cacheLookup]
      rw [if_neg (by simp [he])]
      exact ih h
    · rw [he] at h
      simp at h

/-- Reading back the cache file just written for fingerprint `k` yields the
payload just written. -/
theorem cacheLookup_cacheWrite (c : Cache) (k : String) (v : Payload) :
    cacheLookup (cacheWrite c k v) k = some v := by
  unfold cacheWrite
  cases h : List.any c (fun e => e.1 == k)
  · rw [if_neg (by simp)]
    exact cacheLookup_append_fresh k v c h
  · rw [if_pos rfl]
    exact cacheLookup_overwrite k v c h

/-- C2 counterexample: two calls with the same URL and the same parameter
mapping but different insertion orders ({"a": "1", "b": "2"} vs
{"b": "2", "a": "1"}) fingerprint differently, so the second call misses
the cache and performs a network request (it consumes a network response:
the remaining network [] differs from the network it started with), even
though the first call cached its 200 response.  The claim's "regardless of
the insertion order of the parameters" is therefore false. -/
theorem param_order_counterexample :
    get_json_from_url ⟨true, []⟩ "https://h/api" [("a", "1"), ("b", "2")] []
        [⟨200, some (Payload.json "v")⟩, ⟨200, some (Payload.json "v")⟩] =
      Except.ok (Payload.json "v",
        [("https://h/api?a=1&b=2", Payload.json "v")],
        [⟨200, some (Payload.json "v")⟩]) ∧
    get_json_from_url ⟨true, []⟩ "https://h/api" [("b", "2"), ("a", "1")]
        [("https://h/api?a=1&b=2", Payload.json "v")]
        [⟨200, some (Payload.json "v")⟩] =
      Except.ok (Payload.json "v",
        [("https://h/api?a=1&b=2", Payload.json "v"),
         ("https://h/api?b=2&a=1", Payload.json "v")], []) ∧
    ([] : List HttpResponse) ≠ [⟨200, some (Payload.json "v")⟩] := by
  refine ⟨?_, ?_, ?_⟩
  · rfl
  · rfl
  · simp

/-- C2 (amended): two successive calls with identical URL and identical
parameters in the same insertion order, where the first call misses the
cache and receives a 200 JSON-decodable non-null response: the first call
caches that payload under the prepared URL's fingerprint, and the second
call performs no network request (its network is left untouched) and
returns the identical payload. -/
theorem second_call_uses_cache (env : FetchEnv) (url : String) (params : Params)
    (c : Cache) (p : Payload) (rest : List HttpResponse)
    (henv : env.useCache = true) (hp : p ≠ Payload.null)
    (hmiss : cacheLookup c (preparedUrl url (updateParams env.defaultParams params)) = none) :
    get_json_from_url env url params c (⟨200, some p⟩ :: rest) =
      Except.ok (p, cacheWrite c (preparedUrl url (updateParams env.defaultParams params)) p,
        rest) ∧
    get_json_from_url env url params
        (cacheWrite c (preparedUrl url (updateParams env.defaultParams params)) p) rest =
      Except.ok (p, cacheWrite c (preparedUrl url (updateParams env.defaultParams params)) p,
        rest) := by
  have hsave : (save_to_cache true
      (preparedUrl url (updateParams env.defaultParams params)) p 200 c).1 =
      cacheWrite c (preparedUrl url (updateParams env.defaultParams params)) p := by
    cases p
    · exact absurd rfl hp
    · rfl
    · rfl
  constructor
  · unfold get_json_from_url
    rw [henv]
    simp [retrieve_from_cache, hmiss, perform_request, hsave]
  · unfold get_json_from_url
    rw [henv]
    simp [retrieve_from_cache, cacheLookup_cacheWrite]

/-- Witness for C2's amended theorem at a concrete URL, parameter list,
payload and network. -/
theorem second_call_uses_cache_witness :
    get_json_from_url ⟨true, []⟩ "https://h/api" [("a", "1")] []
        [⟨200, some (Payload.json "v")⟩] =
      Except.ok (Payload.json "v", [("https://h/api?a=1", Payload.json "v")], []) ∧
    get_json_from_url ⟨true, []⟩ "https://h/api" [("a", "1")]
        [("https://h/api?a=1", Payload.json "v")] [] =
      Except.ok (Payload.json "v", [("https://h/api?a=1", Payload.json "v")], []) :=
  second_call_uses_cache ⟨true, []⟩ "https://h/api" [("a", "1")] [] (Payload.json "v") []
    rfl (by decide) rfl

/-- A planar geometry as handled by the region resolver: a point or a
polygon given by its coordinate ring. -/
inductive Geometry where
  | point : ℚ → ℚ → Geometry
  | poly : List (ℚ × ℚ) → Geometry
deriving DecidableEq, Repr

/-- `shapely.geometry.box(minx, miny, maxx, maxy)`: the counter-clockwise
rectangle [(maxx, miny), (maxx, maxy), (minx, maxy), (minx, miny)]. -/
def geometry_box (w s e n : ℚ) : Geometry :=
  Geometry.poly [(e, s), (e, n), (w, n), (w, s)]

/-- A geopandas GeoDataFrame reduced to what the region resolver reads: its
geometry column and its CRS (None for naive geometries). -/
structure GeoDataFrame where
  geoms : List Geometry
  crs : Option String
deriving DecidableEq, Repr

/-- `gdf.iloc[:1]`: keep the first row. -/
def ilocFirst (g : GeoDataFrame) : GeoDataFrame :=
  ⟨List.take 1 g.geoms, g.crs⟩

/-- Errors raised along `_process_region_arg`: `naiveGeometry` is the
`ValueError` from `to_crs` on a frame without CRS; `crsMismatch` the
`ValueError` from the `GeoSeries` constructor when the passed series
carries a different CRS; `nonGeometryData` the error from constructing a
`GeoSeries` out of non-geometry data; `geocodingUnavailable` the
`AttributeError` raised by `ox.geocode_to_gdf` when `osmnx` is not
installed (`ox` is `None`). -/
inductive RegionError where
  | naiveGeometry : RegionError
  | crsMismatch : RegionError
  | nonGeometryData : RegionError
  | geocodingUnavailable : RegionError
deriving DecidableEq, Repr

/-- The collaborators of `RegionMixin._process_region_arg`: the client's
`CRS` class attribute, the pyproj coordinate transform used by `to_crs`,
the filesystem/driver behind `geopandas.read_file` (None when the string is
not a readable geometry source), whether `osmnx` is importable, and the
Nominatim geocoder `ox.geocode_to_gdf`. -/
structure RegionCtx where
  CRS : String
  transform : String → String → Geometry → Geometry
  read_file : String → Option GeoDataFrame
  oxAvailable : Bool
  geocode_to_gdf : String → GeoDataFrame

/-- The region argument, one constructor per shape the Python code sniffs:
a GeoDataFrame, a GeoSeries (with optional CRS), a sequence of numbers, a
bare shapely geometry, a sequence of geometries, and a string (file path,
URL or place-name query). -/
inductive RegionArg where
  | gdf : GeoDataFrame → RegionArg
  | gseries : List Geometry → Option String → RegionArg
  | numSeq : List ℚ → RegionArg
  | geom : Geometry → RegionArg
  | geomSeq : List Geometry → RegionArg
  | strArg : String → RegionArg

/-- `gdf.to_crs(self.CRS)`: fails on a CRS-less frame, otherwise reprojects
every geometry to the target CRS (the identity when the CRS already is the
target) and tags the frame with it. -/
def to_crs (ctx : RegionCtx) (g : GeoDataFrame) : Except RegionError GeoDataFrame :=
  match g.crs with
  | none => Except.error RegionError.naiveGeometry
  | some c =>
    Except.ok
      ⟨if c = ctx.CRS then g.geoms else List.map (ctx.transform c ctx.CRS) g.geoms,
        some ctx.CRS⟩

/-- The body of `RegionMixin._process_region_arg` before its final
`return region.to_crs(self.CRS)`: a GeoDataFrame passes through; a
4-number sequence becomes a `geometry.box` wrapped in a GeoSeries with the
client CRS; a geometry or sequence of geometries becomes a GeoSeries with
the client CRS; a GeoSeries is rewrapped (keeping its CRS when set, the
client CRS when naive); any other string is tried with
`geopandas.read_file` and, on failure, geocoded with `ox.geocode_to_gdf`,
keeping the first candidate — an `AttributeError` escaping when `ox` is
`None`. -/
def region_dispatch (ctx : RegionCtx) : RegionArg → Except RegionError GeoDataFrame
  | RegionArg.gdf g => Except.ok g
  | RegionArg.gseries gs crs0 =>
    match crs0 with
    | none => Except.ok ⟨gs, some ctx.CRS⟩
    | some c =>
      if c = ctx.CRS then Except.ok ⟨gs, some c⟩ else Except.error RegionError.crsMismatch
  | RegionArg.numSeq xs =>
    match xs with
    | [w, s, e, n] => Except.ok ⟨[geometry_box w s e n], some ctx.CRS⟩
    | _ => Except.error RegionError.nonGeometryData
  | RegionArg.geom g => Except.ok ⟨[g], some ctx.CRS⟩
  | RegionArg.geomSeq gs => Except.ok ⟨gs, some ctx.CRS⟩
  | RegionArg.strArg s =>
    match ctx.read_file s with
    | some g => Except.ok g
    | none =>
      if ctx.oxAvailable then Except.ok (ilocFirst (ctx.geocode_to_gdf s))
      else Except.error RegionError.geocodingUnavailable

/-- `RegionMixin._process_region_arg`
(`meteostations/mixins/region.py`; the near-identical copy lives in
`meteostations/clients/base.py`): dispatch on the argument shape, then
reproject at the single exit point.  The `Nat` counts the `to_crs`
invocations performed. -/
def process_region_arg (ctx : RegionCtx) (r : RegionArg) :
    Except RegionError (GeoDataFrame × Nat) :=
  match region_dispatch ctx r with
  | Except.ok g =>
    match to_crs ctx g with
    | Except.ok g2 => Except.ok (g2, 1)
    | Except.error e => Except.error e
  | Except.error e => Except.error e

/-- Coordinates read by `total_bounds`. -/
def geomCoords : Geometry → List (ℚ × ℚ)
  | Geometry.point x y => [(x, y)]
  | Geometry.poly cs => cs

/-- Axis-aligned bounds (minx, miny, maxx, maxy). -/
structure Bounds where
  minx : ℚ
  miny : ℚ
  maxx : ℚ
  maxy : ℚ
deriving DecidableEq, Repr

/-- `gdf.total_bounds`: the coordinate-wise minima and maxima over all
geometries (None for an empty frame, where geopandas yields NaNs). -/
def total_bounds (g : GeoDataFrame) : Option Bounds :=
  match List.foldr (fun geo acc => geomCoords geo ++ acc) [] g.geoms with
  | [] => none
  | q :: qs =>
    some (List.foldl
      (fun b r => ⟨min b.minx r.1, min b.miny r.2, max b.maxx r.1, max b.maxy r.2⟩)
      ⟨q.1, q.2, q.1, q.2⟩ qs)

/-- `to_crs` always tags a successful result with the target CRS. -/
theorem to_crs_crs (ctx : RegionCtx) (g g2 : GeoDataFrame)
    (h : to_crs ctx g = Except.ok g2) : g2.crs = some ctx.CRS := by
  unfold to_crs at h
  cases hc : g.crs with
  | none =>
    rw [hc] at h
    simp at h
  | some c =>
    rw [hc] at h
    simp only [Except.ok.injEq] at h
    rw [← h]

/-- C6: whenever region resolution succeeds, the resulting Region carries
exactly the owning client's declared CRS, and the reprojection `to_crs`
was performed exactly once (at the single exit point of the resolver). -/
theorem region_crs_invariant (ctx : RegionCtx) (r : RegionArg) (g : GeoDataFrame) (n : Nat)
    (h : process_region_arg ctx r = Except.ok (g, n)) :
    g.crs = some ctx.CRS ∧ n = 1 := by
  unfold process_region_arg at h
  cases hd : region_dispatch ctx r with
  | error e =>
    rw [hd] at h
    simp at h
  | ok g0 =>
    rw [hd] at h
    dsimp only at h
    cases hc : to_crs ctx g0 with
    | error e =>
      rw [hc] at h
      simp at h
    | ok g2 =>
      rw [hc] at h
      simp only [Except.ok.injEq, Prod.mk.injEq] at h
      obtain ⟨hg, hn⟩ := h
      subst hg
      exact ⟨to_crs_crs ctx g0 _ hc, hn.symm⟩

/-- Witness for C6: a bare point geometry resolved under a concrete
context. -/
theorem region_crs_invariant_witness :
    (⟨[Geometry.point 0 0], some "epsg:4326"⟩ : GeoDataFrame).crs = some "epsg:4326" ∧
    1 = 1 :=
  region_crs_invariant
    ⟨"epsg:4326", fun _ _ g => g, fun _ => none, false, fun _ => ⟨[], none⟩⟩
    (RegionArg.geom (Geometry.point 0 0)) ⟨[Geometry.point 0 0], some "epsg:4326"⟩ 1 rfl

/-- C7: a valid bounding box [w, s, e, n] resolves (the input CRS assumed
for it being the client CRS itself, so reprojection is the identity) to a
Region made of the single rectangle `geometry.box w s e n`, whose bounds
are exactly (w, s, e, n). -/
theorem bbox_region_bounds (ctx : RegionCtx) (w s e n : ℚ)
    (hwe : w ≤ e) (hsn : s ≤ n) :
    process_region_arg ctx (RegionArg.numSeq [w, s, e, n]) =
      Except.ok (⟨[geometry_box w s e n], some ctx.CRS⟩, 1) ∧
    total_bounds ⟨[geometry_box w s e n], some ctx.CRS⟩ = some ⟨w, s, e, n⟩ := by
  constructor
  · unfold process_region_arg region_dispatch to_crs
    simp
  · unfold total_bounds geometry_box geomCoords
    simp only [List.foldr, List.foldl, List.append_nil, Option.some.injEq,
      Bounds.mk.injEq]
    refine ⟨?_, ?_, ?_, ?_⟩ <;>
      · simp only [inf_eq_min, sup_eq_max, min_def, max_def]
        split_ifs <;> first | rfl | linarith

/-- Witness for C7 at the bounding box [0, 1, 2, 3]. -/
theorem bbox_region_bounds_witness :
    process_region_arg
        ⟨"epsg:4326", fun _ _ g => g, fun _ => none, false, fun _ => ⟨[], none⟩⟩
        (RegionArg.numSeq [0, 1, 2, 3]) =
      Except.ok (⟨[geometry_box 0 1 2 3], some "epsg:4326"⟩, 1) ∧
    total_bounds ⟨[geometry_box 0 1 2 3], some "epsg:4326"⟩ =
      some ⟨0, 1, 2, 3⟩ :=
  bbox_region_bounds
    ⟨"epsg:4326", fun _ _ g => g, fun _ => none, false, fun _ => ⟨[], none⟩⟩
    0 1 2 3 (by decide) (by decide)

/-- C9: a string region that is not a readable geometry source, resolved
while `osmnx` is unavailable, makes the resolver propagate the
geocoding-unavailable error (the `AttributeError` from calling
`geocode_to_gdf` on `None`) — it never returns a Region (empty or
otherwise). -/
theorem geocoding_unavailable_propagates (ctx : RegionCtx) (q : String)
    (hox : ctx.oxAvailable = false) (hfile : ctx.read_file q = none) :
    process_region_arg ctx (RegionArg.strArg q) =
      Except.error RegionError.geocodingUnavailable ∧
    ∀ (g : GeoDataFrame) (k : Nat),
      process_region_arg ctx (RegionArg.strArg q) ≠ Except.ok (g, k) := by
  have hd : region_dispatch ctx (RegionArg.strArg q) =
      Except.error RegionError.geocodingUnavailable := by
    have hstep : region_dispatch ctx (RegionArg.strArg q) =
        (match ctx.read_file q with
         | some g => Except.ok g
         | none =>
           if ctx.oxAvailable = true then Except.ok (ilocFirst (ctx.geocode_to_gdf q))
           else Except.error RegionError.geocodingUnavailable) := rfl
    rw [hstep, hfile, hox]
    simp
  have hmain : process_region_arg ctx (RegionArg.strArg q) =
      Except.error RegionError.geocodingUnavailable := by
    unfold process_region_arg
    rw [hd]
  refine ⟨hmain, fun g k hcontra => ?_⟩
  rw [hmain] at hcontra
  exact absurd hcontra (by simp)

/-- Witness for C9 with a concrete context whose filesystem has no
geometry file and whose `osmnx` is absent. -/
theorem geocoding_unavailable_propagates_witness :
    process_region_arg
        ⟨"epsg:4326", fun _ _ g => g, fun _ => none, false, fun _ => ⟨[], none⟩⟩
        (RegionArg.strArg "Pully, Switzerland") =
      Except.error RegionError.geocodingUnavailable ∧
    ∀ (g : GeoDataFrame) (k : Nat),
      process_region_arg
          ⟨"epsg:4326", fun _ _ g => g, fun _ => none, false, fun _ => ⟨[], none⟩⟩
          (RegionArg.strArg "Pully, Switzerland") ≠ Except.ok (g, k) :=
  geocoding_unavailable_propagates
    ⟨"epsg:4326", fun _ _ g => g, fun _ => none, false, fun _ => ⟨[], none⟩⟩
    "Pully, Switzerland" rfl rfl

/-- The state behind `BaseClient.stations_gdf` (`meteostations/base.py`):
the instance either has the `_stations_gdf` attribute set to a
previously computed object, or not; `_get_stations_gdf` builds a fresh
GeoDataFrame object.  Objects are modelled by allocation ids: `next_obj`
is the id the next allocation would take. -/
structure StationsClient where
  stations_gdf_cached : Option Nat
  next_obj : Nat
deriving DecidableEq, Repr

/-- The `stations_gdf` property: return `self._stations_gdf` if the
attribute exists; on `AttributeError` compute `self._get_stations_gdf()`
(allocating a new object), store it in the attribute and return it. -/
def stations_gdf (cl : StationsClient) : Nat × StationsClient :=
  match cl.stations_gdf_cached with
  | some o => (o, cl)
  | none => (cl.next_obj, ⟨some cl.next_obj, cl.next_obj + 1⟩)

/-- C8: accessing `stations_gdf` twice on any client returns the identical
in-memory object both times, and the second access leaves the client
state untouched (no recomputation, no new allocation). -/
theorem stations_gdf_memoized (cl : StationsClient) :
    (stations_gdf (stations_gdf cl).2).1 = (stations_gdf cl).1 ∧
    (stations_gdf (stations_gdf cl).2).2 = (stations_gdf cl).2 := by
  cases h : cl.stations_gdf_cached <;> simp [stations_gdf, h]
